import Mathlib

/-!
Verification of the supakiln execution engine against its specification.

The Python source is shallowly embedded: Python strings are modelled as
Lean `String` (or `List Char` where structural reasoning is needed),
machine integers as `Nat`/`Int` with explicit `% 2^32` where overflow
matters, and fallible operations as `Option`/`Except`.
-/

namespace Supakiln

/-! ### MD5 (hashlib.md5), needed by `CodeExecutor._get_package_hash` -/

/-- `2^32`, the modulus for 32-bit arithmetic in MD5. -/
def u32mod : Nat := 4294967296

/-- The MD5 round constants `K[0..63]` (`floor(abs(sin(i+1)) * 2^32)`). -/
def md5K : List Nat := [
  3614090360, 3905402710, 606105819, 3250441966, 4118548399, 1200080426, 2821735955, 4249261313,
  1770035416, 2336552879, 4294925233, 2304563134, 1804603682, 4254626195, 2792965006, 1236535329,
  4129170786, 3225465664, 643717713, 3921069994, 3593408605, 38016083, 3634488961, 3889429448,
  568446438, 3275163606, 4107603335, 1163531501, 2850285829, 4243563512, 1735328473, 2368359562,
  4294588738, 2272392833, 1839030562, 4259657740, 2763975236, 1272893353, 4139469664, 3200236656,
  681279174, 3936430074, 3572445317, 76029189, 3654602809, 3873151461, 530742520, 3299628645,
  4096336452, 1126891415, 2878612391, 4237533241, 1700485571, 2399980690, 4293915773, 2240044497,
  1873313359, 4264355552, 2734768916, 1309151649, 4149444226, 3174756917, 718787259, 3951481745]

/-- The MD5 per-round left-rotation amounts `s[0..63]`. -/
def md5S : List Nat := [
  7, 12, 17, 22, 7, 12, 17, 22,
  7, 12, 17, 22, 7, 12, 17, 22,
  5, 9, 14, 20, 5, 9, 14, 20,
  5, 9, 14, 20, 5, 9, 14, 20,
  4, 11, 16, 23, 4, 11, 16, 23,
  4, 11, 16, 23, 4, 11, 16, 23,
  6, 10, 15, 21, 6, 10, 15, 21,
  6, 10, 15, 21, 6, 10, 15, 21]

/-- 32-bit left rotation (the argument is assumed `< 2^32`; the result is
reduced mod `2^32`). -/
def rotl32 (x s : Nat) : Nat := ((x <<< s) ||| (x >>> (32 - s))) % u32mod

/-- Bitwise complement within 32 bits, for `x < 2^32`. -/
def md5not (x : Nat) : Nat := 4294967295 - x

/-- One of the 64 MD5 rounds: `M` is the current 16-word message block,
the state is the running `(a, b, c, d)` quadruple, `i` the round index. -/
def md5Step (M : List Nat) (st : Nat × Nat × Nat × Nat) (i : Nat) :
    Nat × Nat × Nat × Nat :=
  let (a, b, c, d) := st
  let fg : Nat × Nat :=
    if i < 16 then (((b &&& c) ||| (md5not b &&& d)), i)
    else if i < 32 then (((d &&& b) ||| (md5not d &&& c)), (5 * i + 1) % 16)
    else if i < 48 then ((b ^^^ c ^^^ d), (3 * i + 5) % 16)
    else ((c ^^^ (b ||| md5not d)), (7 * i) % 16)
  let f := (fg.1 + a + md5K.getD i 0 + M.getD fg.2 0) % u32mod
  (d, (b + rotl32 f (md5S.getD i 0)) % u32mod, b, c)

/-- Process one 64-byte chunk: decode the 16 little-endian words, run the
64 rounds, and add the result to the incoming state (mod `2^32`). -/
def md5Chunk (st : Nat × Nat × Nat × Nat) (chunk : List Nat) :
    Nat × Nat × Nat × Nat :=
  let M := (List.range 16).map (fun j =>
    chunk.getD (4 * j) 0 + chunk.getD (4 * j + 1) 0 * 256 +
    chunk.getD (4 * j + 2) 0 * 65536 + chunk.getD (4 * j + 3) 0 * 16777216)
  let r := (List.range 64).foldl (md5Step M) st
  ((st.1 + r.1) % u32mod, (st.2.1 + r.2.1) % u32mod,
   (st.2.2.1 + r.2.2.1) % u32mod, (st.2.2.2 + r.2.2.2) % u32mod)

/-- MD5 padding: append `0x80`, zero bytes up to 56 mod 64, then the
bit length as a 64-bit little-endian quantity. -/
def md5PadBytes (msg : List Nat) : List Nat :=
  let bitLen := 8 * msg.length
  let padZeros := (119 - msg.length % 64) % 64
  msg ++ 128 :: List.replicate padZeros 0 ++
    (List.range 8).map (fun i => (bitLen >>> (8 * i)) % 256)

/-- Split a byte list into 64-byte chunks (fuel-based structural recursion;
the fuel `l.length` always suffices since each step consumes 64 bytes). -/
def chunk64Go : Nat → List Nat → List (List Nat)
  | 0, _ => []
  | _, [] => []
  | fuel + 1, x :: xs => (x :: xs).take 64 :: chunk64Go fuel ((x :: xs).drop 64)

/-- Split a byte list into 64-byte chunks. -/
def chunk64 (l : List Nat) : List (List Nat) := chunk64Go l.length l

/-- The 16 digest bytes of MD5: fold the chunks from the standard initial
state and serialise the four words little-endian. -/
def md5Digest (msg : List Nat) : List Nat :=
  let r := (chunk64 (md5PadBytes msg)).foldl md5Chunk
    (1732584193, 4023233417, 2562383102, 271733878)
  ([r.1, r.2.1, r.2.2.1, r.2.2.2].map
    (fun w => (List.range 4).map (fun i => (w >>> (8 * i)) % 256))).flatten

/-- The lowercase hex alphabet used by `hexdigest()`. -/
def hexAlphabet : List Char := "0123456789abcdef".data

/-- The hex character for `n % 16`. -/
def hexDigitChar (n : Nat) : Char := hexAlphabet.getD (n % 16) '0'

/-- Two lowercase hex characters for one byte. -/
def byteToHex (b : Nat) : List Char := [hexDigitChar (b / 16), hexDigitChar b]

/-- `hashlib.md5(bytes).hexdigest()`: the 32-character lowercase hex digest. -/
def md5HexDigest (msg : List Nat) : String :=
  ⟨((md5Digest msg).map byteToHex).flatten⟩

/-- `str.encode()`: the UTF-8 bytes of a Python string. -/
def pyEncodeUtf8 (s : String) : List Nat :=
  (s.data.map (fun c => (String.utf8EncodeChar c).map UInt8.toNat)).flatten

/-- Sanity check of the MD5 embedding against a known digest:
`md5("a") = 0cc175b9c0f1b6a831c399e269772661`. -/
theorem md5_selftest :
    md5HexDigest (pyEncodeUtf8 "a") = "0cc175b9c0f1b6a831c399e269772661" := by
  decide

/-! ### Python string helpers shared by several embedded functions -/

/-- Python string `<`: lexicographic comparison by code points. -/
def charListLt : List Char → List Char → Bool
  | [], [] => false
  | [], _ :: _ => true
  | _ :: _, [] => false
  | x :: xs, y :: ys =>
    if x.toNat < y.toNat then true
    else if y.toNat < x.toNat then false
    else charListLt xs ys

/-- Insert a string into a sorted list, after any equal elements
(the stable insertion step of a sort). -/
def pyInsertStr (x : String) : List String → List String
  | [] => [x]
  | y :: ys => if charListLt x.data y.data then x :: y :: ys else y :: pyInsertStr x ys

/-- Python `sorted(strings)`: the stable sort by code-point lexicographic
order (realised as insertion sort, which produces the same list). -/
def pySortedStrings (l : List String) : List String :=
  l.foldr pyInsertStr []

/-- Python `"sep".join(strings)`. -/
def pyJoin (sep : String) (l : List String) : String :=
  String.intercalate sep l

/-- Does `pat` occur as a contiguous sublist of `l`? -/
def subOccurs (pat : List Char) : List Char → Bool
  | [] => pat.isEmpty
  | x :: xs => pat.isPrefixOf (x :: xs) || subOccurs pat xs

/-- Python `sub in s` (substring containment). -/
def pyContainsSub (s sub : String) : Bool :=
  subOccurs sub.data s.data

/-- Python `s.lower()` (ASCII case folding, as used on source code text). -/
def pyLower (s : String) : String := ⟨s.data.map Char.toLower⟩

/-! ### `CodeExecutor._get_package_hash` (src/code_executor.py:69-74)

```python
def _get_package_hash(self, packages: List[str]) -> str:
    sorted_packages = sorted(packages)
    package_str = "-".join(sorted_packages)
    hash_obj = hashlib.md5(package_str.encode())
    return hash_obj.hexdigest()[:12]
```
-/

/-- Python slicing `s[:n]` (by code points). -/
def pySlice (s : String) (n : Nat) : String := ⟨s.data.take n⟩

def getPackageHash (packages : List String) : String :=
  let sortedPackages := pySortedStrings packages
  let packageStr := pyJoin "-" sortedPackages
  pySlice (md5HexDigest (pyEncodeUtf8 packageStr)) 12

/-- The spec-side view of a package list for claim C1: packages viewed as a
sorted, deduplicated set.  This follows the spec words, to be compared with
`getPackageHash`, which only sorts. -/
def sortedDedupedPackages (packages : List String) : List String :=
  (pySortedStrings packages).dedup

/-- The MD5 digest always has 16 bytes. -/
theorem md5Digest_length (msg : List Nat) : (md5Digest msg).length = 16 := by
  simp [md5Digest]

/-- Flattening the per-byte hex pairs doubles the length. -/
theorem byteToHex_flatten_length (l : List Nat) :
    ((l.map byteToHex).flatten).length = 2 * l.length := by
  induction l with
  | nil => simp
  | cons x xs ih => simp [byteToHex, ih]; omega

/-- The MD5 hex digest always has 32 characters. -/
theorem md5HexDigest_data_length (msg : List Nat) :
    (md5HexDigest msg).data.length = 32 := by
  show ((md5Digest msg).map byteToHex).flatten.length = 32
  rw [byteToHex_flatten_length, md5Digest_length]

/-- The MD5 hex digest always has 32 characters (string length form). -/
theorem md5HexDigest_length (msg : List Nat) :
    (md5HexDigest msg).length = 32 :=
  md5HexDigest_data_length msg

/-- Every character produced by `hexDigitChar` is in the hex alphabet. -/
theorem hexDigitChar_mem (n : Nat) : hexDigitChar n ∈ hexAlphabet := by
  have h16 : n % 16 < 16 := Nat.mod_lt _ (by norm_num)
  have hall : ∀ k, k < 16 → hexAlphabet.getD k '0' ∈ hexAlphabet := by decide
  exact hall _ h16

/-- Every character of an MD5 hex digest is a lowercase hex character. -/
theorem md5HexDigest_mem_hex (msg : List Nat) :
    ∀ c ∈ (md5HexDigest msg).data, c ∈ hexAlphabet := by
  intro c hc
  have hc2 : c ∈ ((md5Digest msg).map byteToHex).flatten := hc
  rw [List.mem_flatten] at hc2
  obtain ⟨l, hl, hcl⟩ := hc2
  rw [List.mem_map] at hl
  obtain ⟨b, _, rfl⟩ := hl
  simp only [byteToHex, List.mem_cons, List.mem_singleton] at hcl
  rcases hcl with rfl | rfl | h
  · exact hexDigitChar_mem _
  · exact hexDigitChar_mem _
  · cases h

/-- C1, counterexample: `_get_package_hash` does not deduplicate.  The two
package lists `["a", "a"]` and `["a"]` are equal as sorted, deduplicated
sets, yet they receive different digests (`2b4303bff8e7` vs
`0cc175b9c0f1`), so the claimed invariance under deduplication fails. -/
theorem c1_counterexample_dup_packages :
    sortedDedupedPackages ["a", "a"] = sortedDedupedPackages ["a"] ∧
    getPackageHash ["a", "a"] ≠ getPackageHash ["a"] := by
  constructor
  · decide
  · decide

/-- C1 (amended): the image digest is a pure function of the package list
viewed as a sorted multiset: any two package lists that are equal after
sorting (duplicates retained) receive the same digest, and the digest is a
12-hex-character string. -/
theorem c1_hash_pure_function_of_sorted_packages
    (p q : List String) (h : pySortedStrings p = pySortedStrings q) :
    getPackageHash p = getPackageHash q ∧
    (getPackageHash p).data.length = 12 ∧
    ∀ c ∈ (getPackageHash p).data, c ∈ hexAlphabet := by
  refine ⟨by simp [getPackageHash, h], ?_, ?_⟩
  · show (((md5HexDigest _).data).take 12).length = 12
    rw [List.length_take, md5HexDigest_data_length]
    decide
  · intro c hc
    simp only [getPackageHash, pySlice] at hc
    exact md5HexDigest_mem_hex _ _ (List.mem_of_mem_take hc)

/-- C1 (amended), witness: the two package orders of the spec scenario
share one digest. -/
theorem c1_hash_pure_function_witness :
    pySortedStrings ["pandas", "numpy"] = pySortedStrings ["numpy", "pandas"] ∧
    getPackageHash ["pandas", "numpy"] = getPackageHash ["numpy", "pandas"] :=
  ⟨by decide,
   (c1_hash_pure_function_of_sorted_packages ["pandas", "numpy"]
     ["numpy", "pandas"] (by decide)).1⟩

/-! ### `CodeExecutor._detect_web_service` (src/code_executor.py:89-129)

The detector allocates a random internal port (irrelevant to the
classification) and then tests, in order: Streamlit, FastAPI, Flask, Dash.
There is no Gradio rule anywhere in the source.
-/

inductive ServiceType
  | streamlit
  | fastapi
  | flask
  | dash
deriving DecidableEq, Repr

/-- Guard of the Streamlit branch:
`'streamlit' in packages or 'streamlit' in code_lower or 'st.' in code`. -/
def streamlitCond (code : String) (packages : List String) : Bool :=
  packages.contains "streamlit" || pyContainsSub (pyLower code) "streamlit" ||
    pyContainsSub code "st."

/-- Guard of the FastAPI branch:
`'fastapi' in packages or 'uvicorn' in packages or ('fastapi' in code_lower and 'uvicorn' in code_lower)`. -/
def fastapiCond (code : String) (packages : List String) : Bool :=
  packages.contains "fastapi" || packages.contains "uvicorn" ||
    (pyContainsSub (pyLower code) "fastapi" && pyContainsSub (pyLower code) "uvicorn")

/-- Guard of the Flask branch: `'flask' in packages or 'flask' in code_lower`. -/
def flaskCond (code : String) (packages : List String) : Bool :=
  packages.contains "flask" || pyContainsSub (pyLower code) "flask"

/-- Guard of the Dash branch:
`'dash' in packages or ('dash' in code_lower and 'plotly' in packages)`. -/
def dashCond (code : String) (packages : List String) : Bool :=
  packages.contains "dash" ||
    (pyContainsSub (pyLower code) "dash" && packages.contains "plotly")

/-- The classification performed by `_detect_web_service`: first matching
rule wins; `none` means the code is not treated as a web service. -/
def detectWebService (code : String) (packages : List String) : Option ServiceType :=
  if streamlitCond code packages then some .streamlit
  else if fastapiCond code packages then some .fastapi
  else if flaskCond code packages then some .flask
  else if dashCond code packages then some .dash
  else none

/-- The spec-side Gradio trigger for claim C6:
`gradio` in packages OR `import gradio` appears in the code. -/
def gradioTrigger (code : String) (packages : List String) : Prop :=
  "gradio" ∈ packages ∨ pyContainsSub code "import gradio" = true

/-- C6, counterexample: code `import gradio` with packages `["gradio"]`
satisfies the Gradio trigger and matches no earlier rule, yet
`_detect_web_service` classifies it as not a web service at all — the
source has no Gradio rule, so the claimed Gradio classification fails. -/
theorem c6_counterexample_no_gradio_rule :
    gradioTrigger "import gradio" ["gradio"] ∧
    streamlitCond "import gradio" ["gradio"] = false ∧
    detectWebService "import gradio" ["gradio"] = none := by
  refine ⟨Or.inl (by decide), by decide, by decide⟩

/-- C6 (amended): the detector has no Gradio rule.  Code whose packages or
text satisfy the Gradio trigger is classified as not a web service
whenever none of the four implemented rules (Streamlit, FastAPI, Flask,
Dash) matches. -/
theorem c6_gradio_never_detected (code : String) (packages : List String)
    (hgr : gradioTrigger code packages)
    (hst : streamlitCond code packages = false)
    (hfa : fastapiCond code packages = false)
    (hfl : flaskCond code packages = false)
    (hda : dashCond code packages = false) :
    detectWebService code packages = none := by
  simp [detectWebService, hst, hfa, hfl, hda]

/-- C6 (amended), witness at the concrete Gradio input. -/
theorem c6_gradio_never_detected_witness :
    detectWebService "import gradio" ["gradio"] = none :=
  c6_gradio_never_detected "import gradio" ["gradio"]
    (Or.inl (by decide)) (by decide) (by decide) (by decide) (by decide)

/-! ### `ServiceManager._run_service`, exit handling (src/services/service_manager.py:206-221)

After the monitored process exits naturally the supervisor runs:

```python
service.status = "stopped" if exit_code == 0 else "error"
...
if service.restart_policy == "always" and service.is_active:
    service.last_restart = datetime.utcnow()
    ...
    self.start_service(service_id, db)
```

No other restart policy is consulted.  The exit code is `Option Int`
because the detached exec may report `None`.
-/

structure ServiceExitHandling where
  status : String
  restarts : Bool
  lastRestartUpdated : Bool
deriving DecidableEq, Repr

/-- What `_run_service` does once the service process has exited. -/
def handleServiceExit (restartPolicy : String) (isActive : Bool)
    (exitCode : Option Int) : ServiceExitHandling :=
  { status := if exitCode = some 0 then "stopped" else "error"
    restarts := restartPolicy == "always" && isActive
    lastRestartUpdated := restartPolicy == "always" && isActive }

/-- C5, counterexample: an active service with `restart_policy="on-failure"`
that exits with code 1 is not restarted, although the claim requires a
restart exactly when the exit code is non-zero. -/
theorem c5_counterexample_on_failure_not_restarted :
    ¬ ((handleServiceExit "on-failure" true (some 1)).restarts = true ↔
        (1 : Int) ≠ 0) := by
  decide

/-- C5 (amended): after a natural exit the supervisor restarts the service
iff `restart_policy` is `"always"` and the service is active; in
particular a service with `restart_policy="on-failure"` is never
restarted, whatever its exit code. -/
theorem c5_restart_only_for_always (policy : String) (isActive : Bool)
    (exitCode : Option Int) :
    (handleServiceExit policy isActive exitCode).restarts =
      (policy == "always" && isActive) ∧
    (handleServiceExit "on-failure" isActive exitCode).restarts = false := by
  constructor
  · rfl
  · rfl

/-! ### `create_webhook_job` (src/routers/webhooks.py:40-81)

The whole handler body sits in a `try:` whose final clause is

```python
except Exception as e:
    db.rollback()
    raise HTTPException(status_code=500, detail=str(e))
```

`fastapi.HTTPException` is itself a subclass of `Exception`, so the
`HTTPException(status_code=400, detail="Endpoint already exists")` raised
for a duplicate endpoint is caught by that clause and re-raised with
status 500.  The database is modelled as the list of existing webhook
endpoints; the handler returns the HTTP status and the updated list.
-/

/-- Raised Python exceptions relevant to the handler. -/
inductive PyExc
  | http (status : Nat) (detail : String)
deriving DecidableEq, Repr

/-- Endpoint normalisation:
`if not request.endpoint.startswith('/'): request.endpoint = '/' + request.endpoint`. -/
def normalizeEndpoint (endpoint : String) : String :=
  if "/".data.isPrefixOf endpoint.data then endpoint else "/" ++ endpoint

/-- The `try:` body of `create_webhook_job`: duplicate check, then insert. -/
def createWebhookJobBody (db : List String) (endpoint : String) :
    Except PyExc (List String) :=
  let ep := normalizeEndpoint endpoint
  if db.contains ep then .error (.http 400 "Endpoint already exists")
  else .ok (db ++ [ep])

/-- The observable outcome of the handler: HTTP status plus the resulting
endpoint list.  Any exception from the body — including the 400
`HTTPException` — is caught by `except Exception` and surfaced as 500. -/
def createWebhookJobHandler (db : List String) (endpoint : String) :
    Nat × List String :=
  match createWebhookJobBody db endpoint with
  | .ok db2 => (200, db2)
  | .error _ => (500, db)

/-- Sanity check: creating a fresh endpoint succeeds and records it. -/
theorem createWebhookJob_fresh :
    createWebhookJobHandler [] "/echo" = (200, ["/echo"]) := by decide

/-- C4, code bug: creating a webhook job whose normalised endpoint already
exists does fail (the endpoint list is unchanged), but the blanket
`except Exception` converts the intended 400 into a 500, so the HTTP
caller sees status 500 instead of the specified 400.  The same happens
when the duplicate is submitted without the leading slash. -/
theorem c4_duplicate_endpoint_gives_500 :
    createWebhookJobHandler ["/dup"] "/dup" = (500, ["/dup"]) ∧
    createWebhookJobHandler ["/dup"] "dup" = (500, ["/dup"]) ∧
    createWebhookJobBody ["/dup"] "/dup" =
      .error (.http 400 "Endpoint already exists") := by
  refine ⟨by decide, by decide, by rfl⟩

/-! ### `CodeExecutor._execute_with_timeout` and the one-shot result
(src/code_executor.py:184-210 and 702-764)

The in-sandbox process is modelled by its wall-clock duration, exit code
and captured streams.  `subprocess.run(..., timeout=timeout)` raises
`TimeoutExpired` exactly when the process runs longer than `timeout`
seconds, in which case `_execute_with_timeout` returns
`(False, None, "Execution timed out after {timeout} seconds")` — the
captured output is discarded and the marker goes into the error slot.
-/

structure ProcBehavior where
  duration : Nat
  exitCode : Int
  stdout : String
  stderr : String

/-- The timeout marker produced by `_execute_with_timeout`. -/
def timeoutMessage (timeout : Nat) : String :=
  "Execution timed out after " ++ toString timeout ++ " seconds"

/-- `_execute_with_timeout`: `(success, output, error)`. -/
def executeWithTimeout (p : ProcBehavior) (timeout : Nat) :
    Bool × Option String × Option String :=
  if timeout < p.duration then (false, none, some (timeoutMessage timeout))
  else if p.exitCode = 0 then (true, some p.stdout, none)
  else (false, none, some p.stderr)

structure ExecResult where
  success : Bool
  output : Option String
  error : Option String
  executionTime : Nat

/-- The non-web branch of `execute_code`: run with timeout and record the
elapsed wall-clock time (`subprocess.run` returns after
`min duration timeout` seconds). -/
def executeCodeOneShot (p : ProcBehavior) (timeout : Nat) : ExecResult :=
  let r := executeWithTimeout p timeout
  { success := r.1, output := r.2.1, error := r.2.2,
    executionTime := min p.duration timeout }

/-- The spec-side reading of claim C2: the final captured output contains
the timeout marker. -/
def outputContainsMarker (r : ExecResult) (timeout : Nat) : Prop :=
  ∃ s, r.output = some s ∧ subOccurs (timeoutMessage timeout).data s.data = true

/-- C2, counterexample: a process that runs 5 s against a 2 s timeout.
The elapsed time is indeed `≥ timeout`, but the returned output is `None`:
the timeout marker is placed in the error field, so the claimed
"final captured output contains the timeout marker" fails. -/
theorem c2_counterexample_marker_not_in_output :
    2 < (ProcBehavior.mk 5 0 "" "").duration ∧
    (executeCodeOneShot (ProcBehavior.mk 5 0 "" "") 2).executionTime ≥ 2 ∧
    ¬ outputContainsMarker (executeCodeOneShot (ProcBehavior.mk 5 0 "" "") 2) 2 := by
  refine ⟨by decide, by decide, ?_⟩
  rintro ⟨s, hs, -⟩
  simp [executeCodeOneShot, executeWithTimeout] at hs

/-- C2 (amended): for every one-shot execution (executor path) whose code
runs longer than `timeout_s`, the result has `execution_time_s ≥
timeout_s`, `success=false`, `output=None`, and the timeout marker is the
captured error. -/
theorem c2_timeout_result (p : ProcBehavior) (timeout : Nat)
    (h : timeout < p.duration) :
    (executeCodeOneShot p timeout).executionTime ≥ timeout ∧
    (executeCodeOneShot p timeout).success = false ∧
    (executeCodeOneShot p timeout).output = none ∧
    (executeCodeOneShot p timeout).error = some (timeoutMessage timeout) := by
  refine ⟨?_, ?_, ?_, ?_⟩ <;>
    simp [executeCodeOneShot, executeWithTimeout, if_pos h, Nat.le_of_lt h]

/-- C2 (amended), witness at a process that runs 5 s against 2 s. -/
theorem c2_timeout_result_witness :
    (executeCodeOneShot (ProcBehavior.mk 5 1 "partial" "oops") 2).executionTime ≥ 2 ∧
    (executeCodeOneShot (ProcBehavior.mk 5 1 "partial" "oops") 2).success = false ∧
    (executeCodeOneShot (ProcBehavior.mk 5 1 "partial" "oops") 2).output = none ∧
    (executeCodeOneShot (ProcBehavior.mk 5 1 "partial" "oops") 2).error =
      some (timeoutMessage 2) :=
  c2_timeout_result (ProcBehavior.mk 5 1 "partial" "oops") 2 (by decide)

/-! ### Webhook exec command construction (src/routers/webhook_execution.py:147-160)

```python
if job.timeout == -1:
    exec_command = f"python -c 'import base64; exec(base64.b64decode(\"{encoded_code}\").decode())'"
else:
    exec_command = f"timeout {job.timeout} python -c 'import base64; exec(base64.b64decode(\"{encoded_code}\").decode())'"
```
-/

/-- The plain (deadline-free) in-container python invocation. -/
def plainPythonExecCommand (encoded : String) : String :=
  "python -c \x27import base64; exec(base64.b64decode(\"" ++ encoded ++
    "\").decode())\x27"

/-- The exec command for a webhook job with the given `timeout` column. -/
def webhookExecCommand (timeout : Int) (encoded : String) : String :=
  if timeout = -1 then plainPythonExecCommand encoded
  else "timeout " ++ toString timeout ++ " " ++ plainPythonExecCommand encoded

/-- Modelled from the spec: running the exec command for `userDuration`
seconds of user work.  The GNU `timeout N cmd` wrapper (external to this
repository) kills `cmd` after `N` seconds; `timeout_s = -1` produces no
wrapper and hence no deadline. -/
def webhookRunDuration (timeout : Int) (userDuration : Nat) : Nat :=
  if timeout = -1 then userDuration else min userDuration timeout.toNat

/-- C8: with `timeout_s = -1` the exec command is the plain python
invocation — it carries no `timeout` wrapper and the modelled run is
unbounded; with any other value the command is wrapped in
`timeout {t}` and the modelled run is bounded by `t` seconds. -/
theorem c8_webhook_timeout_wrapper (t : Int) (encoded : String) (d : Nat) :
    (t = -1 →
      webhookExecCommand t encoded = plainPythonExecCommand encoded ∧
      "timeout ".data.isPrefixOf (webhookExecCommand t encoded).data = false ∧
      webhookRunDuration t d = d) ∧
    (t ≠ -1 →
      webhookExecCommand t encoded =
        "timeout " ++ toString t ++ " " ++ plainPythonExecCommand encoded ∧
      webhookRunDuration t d ≤ t.toNat) := by
  constructor
  · intro h
    subst h
    refine ⟨rfl, ?_, rfl⟩
    show "timeout ".data.isPrefixOf (plainPythonExecCommand encoded).data = false
    simp [plainPythonExecCommand, String.data_append, List.isPrefixOf]
  · intro h
    refine ⟨by simp [webhookExecCommand, h], ?_⟩
    simp [webhookRunDuration, h]

/-- C8, witness at `t = -1` and `t = 30`. -/
theorem c8_webhook_timeout_wrapper_witness :
    webhookExecCommand (-1) "ZWNobw==" = plainPythonExecCommand "ZWNobw==" ∧
    webhookExecCommand 30 "ZWNobw==" =
      "timeout " ++ toString (30 : Int) ++ " " ++ plainPythonExecCommand "ZWNobw==" ∧
    webhookRunDuration 30 999 ≤ (30 : Int).toNat :=
  ⟨((c8_webhook_timeout_wrapper (-1) "ZWNobw==" 0).1 rfl).1,
   ((c8_webhook_timeout_wrapper 30 "ZWNobw==" 999).2 (by decide)).1,
   ((c8_webhook_timeout_wrapper 30 "ZWNobw==" 999).2 (by decide)).2⟩

/-! ### `EnvironmentManager` — the SecretsVault (src/env_manager.py)

The store is the ordered list of `environment_variables` rows; Fernet
encryption with the vault key is abstracted as a pair of functions
`enc`/`dec`, with `dec (enc v) = some v` when the key matches and `dec`
returning `none` on decryption failure (the `except` branch of
`get_variable`).
-/

structure EnvEntry where
  name : String
  value : String
  description : Option String
deriving DecidableEq, Repr

/-- `self.db.query(EnvironmentVariable).filter_by(name=name).first()`. -/
def findVariable (name : String) : List EnvEntry → Option EnvEntry
  | [] => none
  | e :: rest => if e.name = name then some e else findVariable name rest

/-- `EnvironmentManager.set_variable`: update the found row, else insert. -/
def setVariable (enc : String → String) (name value : String)
    (description : Option String) : List EnvEntry → List EnvEntry
  | [] => [⟨name, enc value, description⟩]
  | e :: rest =>
    if e.name = name then
      { e with
        value := enc value
        description := match description with
          | some d => some d
          | none => e.description } :: rest
    else e :: setVariable enc name value description rest

/-- `EnvironmentManager.get_variable`: decrypt the found row, `none` on a
missing row or a decryption failure. -/
def getVariable (dec : String → Option String) (name : String)
    (db : List EnvEntry) : Option String :=
  match findVariable name db with
  | none => none
  | some e => dec e.value

/-- `EnvironmentManager.delete_variable`: remove the found row, report
whether one was found. -/
def deleteVariable (name : String) : List EnvEntry → Bool × List EnvEntry
  | [] => (false, [])
  | e :: rest =>
    if e.name = name then (true, rest)
    else
      let r := deleteVariable name rest
      (r.1, e :: r.2)

/-- A name that occurs in no row is not found. -/
theorem findVariable_eq_none_of_not_mem (name : String) (db : List EnvEntry)
    (h : name ∉ db.map EnvEntry.name) : findVariable name db = none := by
  induction db with
  | nil => rfl
  | cons e rest ih =>
    simp only [List.map_cons, List.mem_cons] at h
    push_neg at h
    have hne : ¬ e.name = name := fun hh => h.1 hh.symm
    simp [findVariable, hne, ih h.2]

/-- C9: the SecretsVault round-trip.  With the matching key, on a store
whose names are unique (the column is declared `unique`), `set` followed
by `get` returns the value just stored, and `delete` followed by `get`
returns `None`. -/
theorem c9_vault_round_trip (enc : String → String)
    (dec : String → Option String) (hkey : ∀ v, dec (enc v) = some v)
    (db : List EnvEntry) (hnodup : (db.map EnvEntry.name).Nodup)
    (name value : String) (description : Option String) :
    getVariable dec name (setVariable enc name value description db) = some value ∧
    getVariable dec name (deleteVariable name db).2 = none := by
  induction db with
  | nil => simp [getVariable, setVariable, deleteVariable, findVariable, hkey]
  | cons e rest ih =>
    simp only [List.map_cons, List.nodup_cons] at hnodup
    obtain ⟨hhead, htail⟩ := hnodup
    by_cases hname : e.name = name
    · subst hname
      constructor
      · simp [getVariable, setVariable, findVariable, hkey]
      · simp only [deleteVariable, if_pos rfl]
        simp [getVariable, findVariable_eq_none_of_not_mem _ _ hhead]
    · have := ih htail
      constructor
      · simpa [getVariable, setVariable, findVariable, hname] using this.1
      · simpa [getVariable, deleteVariable, findVariable, hname] using this.2

/-- C9, witness: a concrete round-trip with the identity cipher. -/
theorem c9_vault_round_trip_witness :
    getVariable some "API_KEY"
      (setVariable id "API_KEY" "s3cret" none [⟨"OTHER", "x", none⟩]) =
      some "s3cret" ∧
    getVariable some "API_KEY" (deleteVariable "API_KEY"
      [⟨"OTHER", "x", none⟩]).2 = none :=
  c9_vault_round_trip id some (fun _ => rfl) [⟨"OTHER", "x", none⟩]
    (by decide) "API_KEY" "s3cret" none

/-! ### `GET /env/{name}` (src/routers/environment.py:61-68) -/

inductive EnvRouteResp
  | ok (name value : String)
  | notFound
deriving DecidableEq, Repr

/-- The route handler: 404 when `get_variable` returns `None`, else the
name/value body. -/
def getEnvVariableRoute (dec : String → Option String) (name : String)
    (db : List EnvEntry) : EnvRouteResp :=
  match getVariable dec name db with
  | none => .notFound
  | some v => .ok name v

/-- The HTTP status of the route response. -/
def envRouteStatus : EnvRouteResp → Nat
  | .ok _ _ => 200
  | .notFound => 404

/-- C10: a stored secret whose ciphertext does not decrypt with the
current key yields the same `404 Not Found` response as a secret that
does not exist — the two cases are indistinguishable at the public
interface. -/
theorem c10_undecryptable_secret_is_404 (dec : String → Option String)
    (name : String) (db db2 : List EnvEntry) (e : EnvEntry)
    (hfound : findVariable name db = some e) (hdec : dec e.value = none)
    (habsent : findVariable name db2 = none) :
    getEnvVariableRoute dec name db = .notFound ∧
    getEnvVariableRoute dec name db2 = .notFound ∧
    envRouteStatus (getEnvVariableRoute dec name db) = 404 := by
  simp [getEnvVariableRoute, getVariable, hfound, hdec, habsent, envRouteStatus]

/-- C10, witness: a store holding one garbage ciphertext under a failing
decryption, against the empty store. -/
theorem c10_undecryptable_secret_is_404_witness :
    getEnvVariableRoute (fun _ => none) "K" [⟨"K", "garbage", none⟩] =
      .notFound ∧
    getEnvVariableRoute (fun _ => none) "K" [] = .notFound ∧
    envRouteStatus (getEnvVariableRoute (fun _ => none) "K"
      [⟨"K", "garbage", none⟩]) = 404 :=
  c10_undecryptable_secret_is_404 (fun _ => none) "K"
    [⟨"K", "garbage", none⟩] [] ⟨"K", "garbage", none⟩ (by rfl) rfl rfl

/-! ### Reverse-proxy path rewriting
(src/routers/proxy/streamlit_handler.py:18-40 and
src/routers/proxy/web_framework_handler.py:139-167)

Paths are handled here as `List Char` so that Python's `split('/')`,
`'/'.join(...)` and `startswith` can be reasoned about structurally.
-/

/-- Python `s.split(c)` for a one-character separator: split on every
occurrence, keeping empty pieces, `"".split(c) == [""]`. -/
def pySplitChar (c : Char) : List Char → List (List Char)
  | [] => [[]]
  | x :: xs =>
    if x = c then [] :: pySplitChar c xs
    else
      match pySplitChar c xs with
      | [] => [[x]]
      | s :: rest => (x :: s) :: rest

/-- Python `sep.join(pieces)` at the character-list level. -/
def pyJoinChars (sep : List Char) : List (List Char) → List Char
  | [] => []
  | [a] => a
  | a :: b :: rest => a ++ sep ++ pyJoinChars sep (b :: rest)

/-- `split` never returns an empty list of pieces. -/
theorem pySplitChar_ne_nil (c : Char) (l : List Char) : pySplitChar c l ≠ [] := by
  cases l with
  | nil => simp [pySplitChar]
  | cons x xs =>
    simp only [pySplitChar]
    by_cases hx : x = c
    · simp [hx]
    · simp only [if_neg hx]
      cases pySplitChar c xs <;> simp

/-- Splitting `a ++ c :: b` where `a` is separator-free peels off `a`. -/
theorem pySplitChar_append_cons (c : Char) (a b : List Char) (ha : c ∉ a) :
    pySplitChar c (a ++ c :: b) = a :: pySplitChar c b := by
  induction a with
  | nil => simp [pySplitChar]
  | cons x xs ih =>
    simp only [List.mem_cons, not_or] at ha
    have hx : ¬ x = c := fun hh => ha.1 hh.symm
    have ih2 : pySplitChar c (xs.append (c :: b)) = xs :: pySplitChar c b :=
      ih ha.2
    simp only [List.cons_append, pySplitChar, if_neg hx]
    rw [ih2]

/-- Joining cons-of-cons pieces moves the head character out. -/
theorem pyJoinChars_cons_cons (sep : List Char) (x : Char) (s : List Char)
    (rest : List (List Char)) :
    pyJoinChars sep ((x :: s) :: rest) = x :: pyJoinChars sep (s :: rest) := by
  cases rest with
  | nil => rfl
  | cons b bs => simp [pyJoinChars]

/-- Joining with the separator inverts splitting on it. -/
theorem pyJoinChars_pySplitChar (c : Char) (l : List Char) :
    pyJoinChars [c] (pySplitChar c l) = l := by
  induction l with
  | nil => rfl
  | cons x xs ih =>
    by_cases hx : x = c
    · subst hx
      simp only [pySplitChar, if_pos rfl]
      obtain ⟨s, rest, hs⟩ : ∃ s rest, pySplitChar x xs = s :: rest := by
        cases hsp : pySplitChar x xs with
        | nil => exact absurd hsp (pySplitChar_ne_nil x xs)
        | cons s rest => exact ⟨s, rest, rfl⟩
      rw [hs]
      rw [hs] at ih
      simpa [pyJoinChars] using ih
    · simp only [pySplitChar, if_neg hx]
      obtain ⟨s, rest, hs⟩ : ∃ s rest, pySplitChar c xs = s :: rest := by
        cases hsp : pySplitChar c xs with
        | nil => exact absurd hsp (pySplitChar_ne_nil c xs)
        | cons s rest => exact ⟨s, rest, rfl⟩
      rw [hs]
      rw [hs] at ih
      rw [pyJoinChars_cons_cons, ih]

/-- `StreamlitProxyHandler.get_target_path`: strip the `/proxy/<id>`
prefix, falling back to `/` when nothing follows it. -/
def streamlitGetTargetPath (originalPath containerId : List Char) : List Char :=
  let parts := pySplitChar '/' originalPath
  if 3 ≤ parts.length ∧ parts.getD 1 [] = "proxy".data then
    if 3 < parts.length then '/' :: pyJoinChars ['/'] (parts.drop 3) else ['/']
  else originalPath

/-- `DashProxyHandler.get_target_path`: keep the prefix; only add a
trailing slash to the bare `/proxy/<id>` path. -/
def dashGetTargetPath (originalPath containerId : List Char) : List Char :=
  if originalPath = "/proxy/".data ++ containerId then
    ("/proxy/".data ++ containerId) ++ ['/']
  else if ("/proxy/".data ++ containerId ++ ['/']).isPrefixOf originalPath then
    originalPath
  else originalPath

/-- C7: reverse-proxy path rewriting.  For a Streamlit service every
request path `/proxy/<id>/X` is forwarded to upstream path `/X`; for a
Dash service the `/proxy/<id>` prefix is preserved and the bare
`/proxy/<id>` is rewritten to `/proxy/<id>/`. -/
theorem c7_proxy_path_rewriting (cid rest : List Char) (h : '/' ∉ cid) :
    streamlitGetTargetPath ("/proxy/".data ++ (cid ++ '/' :: rest)) cid =
      '/' :: rest ∧
    dashGetTargetPath ("/proxy/".data ++ (cid ++ '/' :: rest)) cid =
      "/proxy/".data ++ (cid ++ '/' :: rest) ∧
    dashGetTargetPath ("/proxy/".data ++ cid) cid =
      ("/proxy/".data ++ cid) ++ ['/'] := by
  refine ⟨?_, ?_, ?_⟩
  · have hsplit : pySplitChar '/' ("/proxy/".data ++ (cid ++ '/' :: rest)) =
        [] :: "proxy".data :: cid :: pySplitChar '/' rest := by
      show pySplitChar '/'
        ('/' :: ("proxy".data ++ '/' :: (cid ++ '/' :: rest))) = _
      rw [show pySplitChar '/'
          ('/' :: ("proxy".data ++ '/' :: (cid ++ '/' :: rest))) =
          [] :: pySplitChar '/' ("proxy".data ++ '/' :: (cid ++ '/' :: rest))
        from by simp [pySplitChar]]
      rw [pySplitChar_append_cons _ _ _ (by decide),
        pySplitChar_append_cons _ _ _ h]
    have hlen : 0 < (pySplitChar '/' rest).length :=
      List.length_pos.mpr (pySplitChar_ne_nil _ _)
    unfold streamlitGetTargetPath
    rw [hsplit]
    have hguard :
        3 ≤ ([] :: "proxy".data :: cid :: pySplitChar '/' rest).length ∧
        ([] :: "proxy".data :: cid :: pySplitChar '/' rest).getD 1 [] =
          "proxy".data := by
      refine ⟨?_, rfl⟩
      simp only [List.length_cons]
      omega
    have hgt : 3 < ([] :: "proxy".data :: cid :: pySplitChar '/' rest).length := by
      simp only [List.length_cons]
      omega
    rw [if_pos hguard, if_pos hgt]
    simp only [List.drop_succ_cons, List.drop_zero]
    rw [pyJoinChars_pySplitChar]
  · have hne : "/proxy/".data ++ (cid ++ '/' :: rest) ≠ "/proxy/".data ++ cid := by
      intro hh
      apply_fun List.length at hh
      simp [List.length_append] at hh
    unfold dashGetTargetPath
    rw [if_neg hne, ite_self]
  · unfold dashGetTargetPath
    rw [if_pos rfl]

/-- C7, witness: a Streamlit health-check path and the Dash base path for
a concrete short id. -/
theorem c7_proxy_path_rewriting_witness :
    streamlitGetTargetPath
      ("/proxy/".data ++ ("abc12345".data ++ '/' :: "_stcore/health".data))
      "abc12345".data = '/' :: "_stcore/health".data ∧
    dashGetTargetPath ("/proxy/".data ++ "abc12345".data) "abc12345".data =
      ("/proxy/".data ++ "abc12345".data) ++ ['/'] :=
  ⟨(c7_proxy_path_rewriting "abc12345".data "_stcore/health".data (by decide)).1,
   (c7_proxy_path_rewriting "abc12345".data "_stcore/health".data (by decide)).2.2⟩

/-! ### Webhook invocation (src/routers/webhook_execution.py:90-212)

The wrapper script surrounds the user code with

```python
try:
    <user code, indented>
except Exception as e:
    response_data = {"error": str(e), "timestamp": datetime.now().isoformat()}
    print(f"Error in webhook code: {e}", file=sys.stderr)
print(json.dumps(response_data))
```

so an exception raised by the user code is caught, recorded in
`response_data`, and the wrapper still terminates normally, printing the
JSON on its final stdout line and exiting with code 0.  The handler then
sets `success = (exit_code == 0)`, scans the stripped output lines in
reverse for a brace-delimited line, parses it as the response body, and
returns it with HTTP 200 when `success` — HTTP 500 is raised only when
the exit code is non-zero.  Text is handled as `List Char`; `json.loads`
on a brace-delimited line is represented by the line itself (the wrapper
always emits well-formed `json.dumps` output there).
-/

/-- Behaviour of the inlined user code: it either completes (leaving some
final `response_data`, given by its JSON serialisation) or raises. -/
inductive UserCodeRun
  | completes (responseJson : List Char)
  | raises (message : List Char)

/-- `json.dumps({"error": str(e), "timestamp": ...})` for a message and
timestamp without characters that JSON would escape. -/
def webhookErrorJsonChars (msg ts : List Char) : List Char :=
  "\x7b\"error\": \"".data ++
    (msg ++ ("\", \"timestamp\": \"".data ++ (ts ++ "\"\x7d".data)))

/-- The stderr line printed by the wrapper for a caught exception. -/
def wrapperStderrLine (msg : List Char) : List Char :=
  "Error in webhook code: ".data ++ msg

/-- Exit code and combined captured output of one wrapper run (stdout and
stderr are merged by `exec_run`; each `print` appends a newline). -/
def runWrapperChars (ts : List Char) : UserCodeRun → Int × List Char
  | .completes rj => (0, rj ++ ['\n'])
  | .raises msg =>
    (0, wrapperStderrLine msg ++
      ('\n' :: (webhookErrorJsonChars msg ts ++ ['\n'])))

/-- Python `str.isspace` on the ASCII whitespace actually produced here. -/
def pyIsSpace (c : Char) : Bool :=
  c == ' ' || c == '\t' || c == '\n' || c == '\r' || c == '\x0b' || c == '\x0c'

/-- Python `s.strip()`: drop leading and trailing whitespace. -/
def pyStripChars (l : List Char) : List Char :=
  ((l.dropWhile pyIsSpace).reverse.dropWhile pyIsSpace).reverse

/-- The scan predicate: `line.strip().startswith('{') and
line.strip().endswith('}')`. -/
def lineIsJsonObject (l : List Char) : Bool :=
  (pyStripChars l).head? == some '{' && (pyStripChars l).getLast? == some '}'

/-- The handler's `response_data`: either the JSON object parsed from the
last brace-delimited output line, or the fallback dictionary
`{"success": ..., "output": ..., "error": ...}`. -/
inductive RespData
  | parsed (jsonLine : List Char)
  | fallback (success : Bool) (output : List Char)
deriving DecidableEq, Repr

/-- Python truthiness of `response_data` (`if not response_data`): the
fallback dictionary always has three keys; a parsed object is falsy
exactly when it is the empty object. -/
def respDataTruthy : RespData → Bool
  | .parsed line => !(line == ['{', '}'])
  | .fallback _ _ => true

/-- What the HTTP caller observes. -/
inductive WebhookHttpResult
  | ok (body : RespData)
  | serverError (detail : List Char)
deriving DecidableEq, Repr

/-- The HTTP status of the webhook response. -/
def webhookHttpStatus : WebhookHttpResult → Nat
  | .ok _ => 200
  | .serverError _ => 500

/-- The response assembly of `execute_webhook` after the exec: parse
`response_data` from the captured output and return it with 200 on a
zero exit code, else raise `HTTPException(500, response_data["error"])`
(for a non-zero exit the fallback's `error` field is the raw output). -/
def executeWebhookOutcome (exitCode : Int) (output : List Char) :
    WebhookHttpResult :=
  let success := exitCode == 0
  let parsedLine : Option (List Char) :=
    if success && !(pyStripChars output).isEmpty then
      match (pySplitChar '\n' (pyStripChars output)).reverse.find?
          lineIsJsonObject with
      | some line => some (pyStripChars line)
      | none => none
    else none
  let responseData : RespData :=
    match parsedLine with
    | some line =>
      if respDataTruthy (.parsed line) then .parsed line
      else .fallback success output
    | none => .fallback success output
  if success then .ok responseData
  else
    match responseData with
    | .fallback _ _ => .serverError output
    | .parsed _ => .serverError "Webhook execution failed".data

/-- Splitting a separator-free list yields that single piece. -/
theorem pySplitChar_of_not_mem (c : Char) (l : List Char) (h : c ∉ l) :
    pySplitChar c l = [l] := by
  induction l with
  | nil => rfl
  | cons x xs ih =>
    simp only [List.mem_cons, not_or] at h
    have hx : ¬ x = c := fun hh => h.1 hh.symm
    simp only [pySplitChar, if_neg hx, ih h.2]

/-- Evaluation of `strip` on a list with a whitespace-free head block, a
whitespace-free tail block, and trailing whitespace. -/
theorem pyStripChars_eval (a mid b w : List Char)
    (ha : a.dropWhile pyIsSpace = a) (hane : a ≠ [])
    (hb : b.reverse.dropWhile pyIsSpace = b.reverse) (hbne : b ≠ [])
    (hw : ∀ c ∈ w, pyIsSpace c = true) :
    pyStripChars (a ++ (mid ++ (b ++ w))) = a ++ (mid ++ b) := by
  unfold pyStripChars
  rw [List.dropWhile_append, ha]
  rw [if_neg (by simp [hane])]
  rw [show (a ++ (mid ++ (b ++ w))).reverse =
      w.reverse ++ (b.reverse ++ (mid.reverse ++ a.reverse)) from by
    simp [List.reverse_append]]
  rw [List.dropWhile_append,
    if_pos (by
      simp only [List.isEmpty_iff, List.dropWhile_eq_nil_iff]
      intro x hx
      exact hw x (List.mem_reverse.mp hx))]
  rw [List.dropWhile_append, hb]
  rw [if_neg (by simp [hbne])]
  simp [List.reverse_append]

/-- C3, counterexample: when the user code of a matched, active webhook
job raises `boom`, the wrapper stores the `{"error": ..., "timestamp": ...}`
object in `response_data` (it becomes the final output line), but the
wrapper exits with code 0, so the HTTP caller receives status 200 with
that payload — not the claimed 500. -/
theorem c3_counterexample_user_exception_returns_200 :
    (runWrapperChars "2026-01-01T00:00:00".data
      (.raises "boom".data)).1 = 0 ∧
    executeWebhookOutcome
        (runWrapperChars "2026-01-01T00:00:00".data (.raises "boom".data)).1
        (runWrapperChars "2026-01-01T00:00:00".data (.raises "boom".data)).2 =
      .ok (.parsed (webhookErrorJsonChars "boom".data
        "2026-01-01T00:00:00".data)) ∧
    webhookHttpStatus (executeWebhookOutcome
        (runWrapperChars "2026-01-01T00:00:00".data (.raises "boom".data)).1
        (runWrapperChars "2026-01-01T00:00:00".data (.raises "boom".data)).2)
      = 200 := by
  refine ⟨rfl, by decide, by decide⟩

/-- Stripping the wrapper output of a raising run keeps everything but the
final newline. -/
theorem pyStripChars_wrapper_output (msg ts : List Char) :
    pyStripChars (runWrapperChars ts (.raises msg)).2 =
      (wrapperStderrLine msg) ++ ('\n' :: webhookErrorJsonChars msg ts) := by
  have hshape : (runWrapperChars ts (.raises msg)).2 =
      "Error in webhook code: ".data ++
        ((msg ++ ('\n' :: ("\x7b\"error\": \"".data ++
          (msg ++ ("\", \"timestamp\": \"".data ++ ts))))) ++
          ("\"\x7d".data ++ ['\n'])) := by
    show ("Error in webhook code: ".data ++ msg) ++
      ('\n' :: (("\x7b\"error\": \"".data ++
        (msg ++ ("\", \"timestamp\": \"".data ++ (ts ++ "\"\x7d".data)))) ++
        ['\n'])) = _
    simp [List.append_assoc]
  rw [hshape, pyStripChars_eval _ _ _ _ (by decide) (by decide) (by decide)
    (by decide) (by intro c hc; simp at hc; subst hc; decide)]
  show _ = ("Error in webhook code: ".data ++ msg) ++
    ('\n' :: ("\x7b\"error\": \"".data ++
      (msg ++ ("\", \"timestamp\": \"".data ++ (ts ++ "\"\x7d".data)))))
  simp [List.append_assoc]

/-- The error JSON line printed by the wrapper strips to itself. -/
theorem pyStripChars_errorJson (msg ts : List Char) :
    pyStripChars (webhookErrorJsonChars msg ts) =
      webhookErrorJsonChars msg ts := by
  have h := pyStripChars_eval "\x7b\"error\": \"".data
    (msg ++ ("\", \"timestamp\": \"".data ++ ts)) "\"\x7d".data []
    (by decide) (by decide) (by decide) (by decide)
    (by intro c hc; simp at hc)
  have e1 : "\x7b\"error\": \"".data ++
      ((msg ++ ("\", \"timestamp\": \"".data ++ ts)) ++
        ("\"\x7d".data ++ [])) = webhookErrorJsonChars msg ts := by
    unfold webhookErrorJsonChars
    simp [List.append_assoc]
  have e2 : "\x7b\"error\": \"".data ++
      ((msg ++ ("\", \"timestamp\": \"".data ++ ts)) ++ "\"\x7d".data) =
      webhookErrorJsonChars msg ts := by
    unfold webhookErrorJsonChars
    simp [List.append_assoc]
  rw [e1, e2] at h
  exact h

/-- The error JSON line passes the brace scan of the handler. -/
theorem lineIsJsonObject_errorJson (msg ts : List Char) :
    lineIsJsonObject (webhookErrorJsonChars msg ts) = true := by
  unfold lineIsJsonObject
  rw [pyStripChars_errorJson]
  have h1 : (webhookErrorJsonChars msg ts).head? = some '{' := by
    show ("\x7b\"error\": \"".data ++ _).head? = some '{'
    rw [List.head?_append]
    rfl
  have h2 : (webhookErrorJsonChars msg ts).getLast? = some '}' := by
    show ("\x7b\"error\": \"".data ++
      (msg ++ ("\", \"timestamp\": \"".data ++
        (ts ++ "\"\x7d".data)))).getLast? = some '}'
    simp only [List.getLast?_append]
    rfl
  rw [h1, h2]
  rfl

/-- The error JSON line is never the empty JSON object. -/
theorem errorJson_ne_empty_object (msg ts : List Char) :
    (webhookErrorJsonChars msg ts == ['{', '}']) = false := by
  apply beq_eq_false_iff_ne.mpr
  intro h
  apply_fun List.length at h
  simp [webhookErrorJsonChars, List.length_append] at h

/-- C3 (amended): when the user code of a matched, active webhook job
raises an exception, the wrapper stores the `{error, timestamp}` object in
`response_data` and exits with code 0, and the HTTP caller receives
status 200 carrying that user-provided error payload (a 500 arises only
when the wrapper itself exits non-zero). -/
theorem c3_user_exception_http200 (msg ts : List Char)
    (hmsg : '\n' ∉ msg) (hts : '\n' ∉ ts) :
    (runWrapperChars ts (.raises msg)).1 = 0 ∧
    executeWebhookOutcome (runWrapperChars ts (.raises msg)).1
        (runWrapperChars ts (.raises msg)).2 =
      .ok (.parsed (webhookErrorJsonChars msg ts)) ∧
    webhookHttpStatus (executeWebhookOutcome (runWrapperChars ts (.raises msg)).1
        (runWrapperChars ts (.raises msg)).2) = 200 := by
  have hstrip := pyStripChars_wrapper_output msg ts
  have hnl1 : '\n' ∉ wrapperStderrLine msg := by
    unfold wrapperStderrLine
    simp only [List.mem_append, not_or]
    exact ⟨by decide, hmsg⟩
  have hnl2 : '\n' ∉ webhookErrorJsonChars msg ts := by
    unfold webhookErrorJsonChars
    simp only [List.mem_append, not_or]
    exact ⟨by decide, hmsg, by decide, hts, by decide⟩
  have hsplit : pySplitChar '\n' (pyStripChars (runWrapperChars ts
      (.raises msg)).2) =
      [wrapperStderrLine msg, webhookErrorJsonChars msg ts] := by
    rw [hstrip, pySplitChar_append_cons _ _ _ hnl1,
      pySplitChar_of_not_mem _ _ hnl2]
  have hne : ((pyStripChars (runWrapperChars ts (.raises msg)).2).isEmpty)
      = false := by
    rw [hstrip]
    cases h : wrapperStderrLine msg ++ ('\n' :: webhookErrorJsonChars msg ts) with
    | nil => exact absurd h (by simp)
    | cons x xs => rfl
  have hmain : executeWebhookOutcome (runWrapperChars ts (.raises msg)).1
      (runWrapperChars ts (.raises msg)).2 =
      .ok (.parsed (webhookErrorJsonChars msg ts)) := by
    show executeWebhookOutcome 0 (runWrapperChars ts (.raises msg)).2 = _
    unfold executeWebhookOutcome
    simp only [hne, hsplit, List.reverse_cons, List.reverse_nil,
      List.nil_append, List.cons_append,
      List.find?_cons_of_pos _ (lineIsJsonObject_errorJson msg ts),
      pyStripChars_errorJson, respDataTruthy, errorJson_ne_empty_object]
    rfl
  exact ⟨rfl, hmain, by rw [hmain]; rfl⟩

/-- C3 (amended), witness at the concrete raising run. -/
theorem c3_user_exception_http200_witness :
    (runWrapperChars "2026-02-03T04:05:06".data (.raises "oops".data)).1 = 0 ∧
    executeWebhookOutcome
        (runWrapperChars "2026-02-03T04:05:06".data (.raises "oops".data)).1
        (runWrapperChars "2026-02-03T04:05:06".data (.raises "oops".data)).2 =
      .ok (.parsed (webhookErrorJsonChars "oops".data
        "2026-02-03T04:05:06".data)) ∧
    webhookHttpStatus (executeWebhookOutcome
        (runWrapperChars "2026-02-03T04:05:06".data (.raises "oops".data)).1
        (runWrapperChars "2026-02-03T04:05:06".data (.raises "oops".data)).2)
      = 200 :=
  c3_user_exception_http200 "oops".data "2026-02-03T04:05:06".data
    (by decide) (by decide)

end Supakiln
